import Mathlib

/-!
Shallow embedding of the two page components of the repository
`nextjs15-rendering`:

* `src/app/page.tsx` — the Landing View (`page`): a static component that
  renders a heading "Home Page" and a `Link` labelled "To Dashboard" whose
  `href` is "/dashboard".

* `src/app/dashboard/page.tsx` — the Echo View (`DashboardPage`): a client
  component holding one piece of `useState` string state (`name`, initially
  `""`).  Each evaluation logs "Dashboard client-component" and renders a
  heading "DashboardPage", an input whose `value` is `name`, and a heading
  `Hello, <name>!`.  The `onChange` handler replaces the state with the
  event's target value.
-/

/-- A `Link` element as rendered by the Landing View: its `href` target and
its visible label. -/
structure LinkElem where
  href : String
  label : String
  deriving Repr, DecidableEq

/-- The rendered output of the Landing View (`page` in `src/app/page.tsx`):
an `h2` heading and a `Link`. -/
structure HomeRender where
  heading : String
  link : LinkElem
  deriving Repr, DecidableEq

/-- The Landing View `page`: it takes no inputs and returns fixed output,
`<h2>Home Page</h2>` and `<Link href="/dashboard">To Dashboard</Link>`. -/
def page : HomeRender :=
  { heading := "Home Page"
    link := { href := "/dashboard", label := "To Dashboard" } }

/-- Activating a rendered `Link` issues a navigation request to its `href`
target address (the `href` prop handed to the router). -/
def activateLink (l : LinkElem) : String :=
  l.href

/-- The rendered output of one evaluation of the Echo View
(`DashboardPage` in `src/app/dashboard/page.tsx`): the `h1` heading, the
input element's displayed `value`, and the `h2` greeting. -/
structure DashboardRender where
  heading : String
  inputValue : String
  greeting : String
  deriving Repr, DecidableEq

/-- The initial value of the Echo View's state: `useState("")`. -/
def initialName : String := ""

/-- The `onChange` handler `(evt) => setName(evt.target.value)`: given the
event's target value and the previous state, it unconditionally replaces
the state with the new value. -/
def setName (newValue : String) (_state : String) : String :=
  newValue

/-- The JSX returned by one evaluation of `DashboardPage` with state
`name`: `<h1>DashboardPage</h1>`, `<input value=name .../>`,
`<h2>Hello, name!</h2>`. -/
def renderDashboard (name : String) : DashboardRender :=
  { heading := "DashboardPage"
    inputValue := name
    greeting := "Hello, " ++ name ++ "!" }

/-- One evaluation (render pass) of the `DashboardPage` function body with
state `name`: it first runs `console.log("Dashboard client-component")`
and then returns the JSX.  The result pairs the log lines emitted by this
evaluation with the rendered output. -/
def evalDashboard (name : String) : List String × DashboardRender :=
  (["Dashboard client-component"], renderDashboard name)

/-- The state of the Echo View after a sequence of update-text operations
(one per change event, each carrying the full current field content),
starting from the initial state. -/
def runEcho (inputs : List String) : String :=
  inputs.foldl (fun st s => setName s st) initialName

/-- The sequence of states the Echo View passes through over a sequence of
update-text operations: the initial state followed by the state after each
update.  Each such state triggers one evaluation of the component. -/
def echoStates (inputs : List String) : List String :=
  initialName :: (List.range inputs.length).map
    (fun i => runEcho (inputs.take (i + 1)))

/-- All log lines emitted over the life of the Echo View on a sequence of
update-text operations: one render pass per state (the initial mount and
one re-evaluation per update), each pass emitting its own log lines. -/
def echoLogTrace (inputs : List String) : List String :=
  (echoStates inputs).flatMap (fun st => (evalDashboard st).1)

/-- The greetings rendered after each update of a sequence of update-text
operations (the post-update render passes, excluding the initial mount). -/
def greetingTrace (inputs : List String) : List String :=
  (List.range inputs.length).map
    (fun i => (renderDashboard (runEcho (inputs.take (i + 1)))).greeting)

lemma flatMap_const_singleton (l : List String) (c : String) :
    l.flatMap (fun _ => [c]) = List.replicate l.length c := by
  induction l with
  | nil => rfl
  | cons a as ih => simp [ih, List.replicate_succ]

/-- C1: after an update-text operation with string `s` (regardless of the
previous state), the rendered greeting is `"Hello, " ++ s ++ "!"`; and the
input sequence "A", "Al", "Ali" yields the greeting sequence
"Hello, A!", "Hello, Al!", "Hello, Ali!". -/
theorem greeting_echoes_input :
    (∀ (s st : String),
      (renderDashboard (setName s st)).greeting = "Hello, " ++ s ++ "!") ∧
    greetingTrace ["A", "Al", "Ali"] =
      ["Hello, A!", "Hello, Al!", "Hello, Ali!"] := by
  constructor
  · intro s st
    rfl
  · rfl

/-- C2: the Echo View's state is initialized to the empty string, and the
initial render shows the greeting "Hello, !" and an input whose displayed
value is the empty string. -/
theorem initial_render_empty :
    initialName = "" ∧
    (renderDashboard initialName).greeting = "Hello, !" ∧
    (renderDashboard initialName).inputValue = "" := by
  refine ⟨rfl, rfl, rfl⟩

/-- C3: in every reachable state (after any sequence of update-text
operations), the rendered input value equals the current internal state and
the greeting equals "Hello, " ++ state ++ "!". -/
theorem render_reflects_state (inputs : List String) :
    (renderDashboard (runEcho inputs)).inputValue = runEcho inputs ∧
    (renderDashboard (runEcho inputs)).greeting =
      "Hello, " ++ runEcho inputs ++ "!" := by
  exact ⟨rfl, rfl⟩

/-- Witness for C3 at a concrete input sequence. -/
theorem render_reflects_state_witness :
    (renderDashboard (runEcho ["A", "Al"])).inputValue = runEcho ["A", "Al"] ∧
    (renderDashboard (runEcho ["A", "Al"])).greeting =
      "Hello, " ++ runEcho ["A", "Al"] ++ "!" :=
  render_reflects_state ["A", "Al"]

/-- C4: the update-text operation is a total function that unconditionally
replaces the state with the given string — for every new value (empty or
arbitrary) and every previous state, the resulting state is exactly the new
value; there is no validation, length limit, or failure path (the handler
returns a `String`, never an error). -/
theorem update_unconditional (s st : String) :
    setName s st = s :=
  rfl

/-- Witness for C4 at concrete inputs. -/
theorem update_unconditional_witness :
    setName "Ali" "Al" = "Ali" :=
  update_unconditional "Ali" "Al"

/-- C5: updating with the empty string after any previous sequence of
updates restores the rendered output (in particular the greeting
"Hello, !") to exactly the initial render. -/
theorem empty_update_resets (inputs : List String) :
    renderDashboard (setName "" (runEcho inputs)) =
      renderDashboard initialName ∧
    (renderDashboard (setName "" (runEcho inputs))).greeting = "Hello, !" := by
  exact ⟨rfl, rfl⟩

/-- Witness for C5 at a concrete non-empty history. -/
theorem empty_update_resets_witness :
    renderDashboard (setName "" (runEcho ["Ali"])) =
      renderDashboard initialName ∧
    (renderDashboard (setName "" (runEcho ["Ali"]))).greeting = "Hello, !" :=
  empty_update_resets ["Ali"]

/-- C6: the Landing View takes no inputs and always renders the fixed
output: heading "Home Page" and a navigation element labeled
"To Dashboard" targeting "/dashboard". -/
theorem landing_fixed_output :
    page = { heading := "Home Page"
             link := { href := "/dashboard", label := "To Dashboard" } } :=
  rfl

/-- C7: activating the Landing View's navigation element issues a
navigation request whose target address is exactly "/dashboard". -/
theorem landing_link_target :
    activateLink page.link = "/dashboard" :=
  rfl

/-- C8: every render pass of the Echo View — the initial mount and each
re-evaluation after an update — emits exactly one log line, the literal
"Dashboard client-component"; over a sequence of `n` updates the full log
trace is `n + 1` copies of that line, not a single line per mount. -/
theorem log_on_every_render (inputs : List String) :
    (∀ st : String, (evalDashboard st).1 = ["Dashboard client-component"]) ∧
    echoLogTrace inputs =
      List.replicate (inputs.length + 1) "Dashboard client-component" := by
  refine ⟨fun st => rfl, ?_⟩
  have h : echoLogTrace inputs =
      (echoStates inputs).flatMap (fun _ => ["Dashboard client-component"]) :=
    rfl
  rw [h, flatMap_const_singleton]
  simp [echoStates]

/-- Witness for C8 at a concrete input sequence. -/
theorem log_on_every_render_witness :
    (evalDashboard "Ali").1 = ["Dashboard client-component"] ∧
    echoLogTrace ["A", "Al"] =
      List.replicate 3 "Dashboard client-component" :=
  ⟨(log_on_every_render ["A", "Al"]).1 "Ali",
   (log_on_every_render ["A", "Al"]).2⟩

/-- C9: the update-text operation is idempotent — applying it twice with
the same string leaves the state, and hence the rendered output, identical
to applying it once. -/
theorem update_idempotent (s st : String) :
    setName s (setName s st) = setName s st ∧
    renderDashboard (setName s (setName s st)) =
      renderDashboard (setName s st) := by
  exact ⟨rfl, rfl⟩

/-- Witness for C9 at concrete inputs. -/
theorem update_idempotent_witness :
    setName "Ali" (setName "Ali" "Al") = setName "Ali" "Al" ∧
    renderDashboard (setName "Ali" (setName "Ali" "Al")) =
      renderDashboard (setName "Ali" "Al") :=
  update_idempotent "Ali" "Al"

/-- C10: rendering is deterministic — the Landing View's output is the
constant `page`, and the Echo View's rendered output and log lines are a
pure function of the state value alone: two evaluations with equal state
values produce identical outputs. -/
theorem render_deterministic (s t : String) (h : s = t) :
    page = page ∧ evalDashboard s = evalDashboard t := by
  exact ⟨rfl, by rw [h]⟩

/-- Witness for C10 at concrete equal states. -/
theorem render_deterministic_witness :
    page = page ∧ evalDashboard "Ali" = evalDashboard "Ali" :=
  render_deterministic "Ali" "Ali" rfl
